import Mathlib

set_option maxRecDepth 8000

/-
Shallow embedding of the workflow controller in autonomous-agent.js
(class AutonomousHealthcareAgent).  External collaborator calls (HTTP,
MCP, git) are modelled as explicit outcome parameters; every pure
computation (string derivation, record construction, control flow,
error wrapping) is translated from the JavaScript source.  Machine
randomness (Math.random draws) and wall-clock reads (Date.now) are
passed in as oracle parameters.
-/

namespace HealthcareAgent

/-- A target URL.  The source calls new URL(url).hostname; URL parsing is
an environment facility, so the hostname is carried alongside the raw
string. -/
structure TargetURL where
  raw : String
  hostname : String

/-- Whether the first list starts the second one. -/
def charsStartWith : List Char → List Char → Bool
  | [], _ => true
  | _ :: _, [] => false
  | p :: ps, c :: cs => p = c && charsStartWith ps cs

/-- Whether the first list ends the second one. -/
def charsEndWith (pat l : List Char) : Bool :=
  charsStartWith pat.reverse l.reverse

/-- JS String.split on a character class, as a list of words; like the
JS split it keeps empty words between adjacent separators. -/
def splitChars (p : Char → Bool) : List Char → List (List Char)
  | [] => [[]]
  | c :: cs =>
    let r := splitChars p cs
    if p c then [] :: r
    else
      match r with
      | [] => [[c]]
      | w :: ws => (c :: w) :: ws

/-- JS Array.join with a single space. -/
def joinWithSpace : List (List Char) → List Char
  | [] => []
  | [w] => w
  | w :: ws => w ++ ' ' :: joinWithSpace ws

/-- JS String.replace with pattern anchored at the start for www. -/
def stripWWWChars (l : List Char) : List Char :=
  if charsStartWith "www.".toList l then l.drop 4 else l

/-- JS String.replace removing a trailing .com, .co.uk, .org or .net,
as in the regex alternation of generatePracticeId and
extractCompanyFromDomain. -/
def stripTLDChars (l : List Char) : List Char :=
  if charsEndWith ".co.uk".toList l then l.take (l.length - 6)
  else if charsEndWith ".com".toList l then l.take (l.length - 4)
  else if charsEndWith ".org".toList l then l.take (l.length - 4)
  else if charsEndWith ".net".toList l then l.take (l.length - 4)
  else l

/-- JS word.charAt(0).toUpperCase() + word.slice(1). -/
def capitalizeChars : List Char → List Char
  | [] => []
  | c :: cs => c.toUpper :: cs

/-- extractCompanyFromDomain from autonomous-agent.js: strip www. and the
TLD, split on dash or dot, capitalize each word, join with spaces and
append the Clinic suffix. -/
def extractCompanyFromDomain (domain : String) : String :=
  let core := stripTLDChars (stripWWWChars domain.toList)
  let words := splitChars (fun c => c = '-' || c = '.') core
  String.mk (joinWithSpace (words.map capitalizeChars)) ++ " Clinic"

/-- Collapse each run of dashes to a single dash, as the JS
replace of a dash-run by one dash does. -/
def collapseDashes (l : List Char) : List Char :=
  l.foldr
    (fun c acc =>
      match acc with
      | '-' :: _ => if c = '-' then acc else c :: acc
      | _ => c :: acc)
    []

/-- Remove one leading dash, half of the JS anchored trim regex. -/
def dropLeadingDash (l : List Char) : List Char :=
  match l with
  | '-' :: r => r
  | _ => l

/-- generatePracticeId from autonomous-agent.js: strip www. and TLD,
lowercase, replace every character outside a-z0-9 with a dash, collapse
dash runs, trim one dash at each end, and keep the first 25
characters. -/
def generatePracticeId (domain : String) : String :=
  let s := (stripTLDChars (stripWWWChars domain.toList)).map Char.toLower
  let dashed := s.map
    (fun c => if ('a' ≤ c ∧ c ≤ 'z') ∨ ('0' ≤ c ∧ c ≤ '9') then c else '-')
  let collapsed := collapseDashes dashed
  let t1 := dropLeadingDash collapsed
  let t2 := (dropLeadingDash t1.reverse).reverse
  String.mk (t2.take 25)

/-- Whether the pattern occurs somewhere in the list; JS
String.includes. -/
def charsContain (pat : List Char) : List Char → Bool
  | [] => pat.isEmpty
  | c :: cs => charsStartWith pat (c :: cs) || charsContain pat cs

/-- JS String.includes on strings. -/
def strIncludes (s pat : String) : Bool :=
  charsContain pat.toList s.toList

/-- extractPhoneFromDomain from autonomous-agent.js.  The three
Math.floor(Math.random()*_ + _) draws are supplied as oracle values q1
q2 q3. -/
def extractPhoneFromDomain (domain : String) (q1 q2 q3 : Nat) : String :=
  if strIncludes domain ".co.uk" || strIncludes domain ".uk" then
    "+44 20 7" ++ toString q1 ++ " " ++ toString q2
  else if strIncludes domain ".au" then
    "+61 2 " ++ toString q1 ++ " " ++ toString q2
  else
    "+1 " ++ toString q1 ++ "-" ++ toString q2 ++ "-" ++ toString q3

/-- The practice record built by scrapeHealthcareWebsite (both its
success and its fallback branch produce this shape). -/
structure PracticeData where
  company : String
  contactName : String
  phone : String
  email : String
  location : String
  services : List String
  practiceType : String
  practiceId : String
  leadSource : String
  leadScore : Nat
  primaryColor : String
  secondaryColor : String
  website : Option String
  isGeneralVersion : Bool

/-- Environment of one scrapeHealthcareWebsite call: whether the page
fetch succeeded (fetch resolved with response.ok and readable body),
the two GLM extraction outcomes (null is modelled as none; the JS
falsy-or also sends an empty location string to the default), and the
random draws used for the phone number. -/
structure ScrapeEnv where
  fetchOk : Bool
  glmServices : Option (List String)
  glmLocation : Option String
  q1 : Nat
  q2 : Nat
  q3 : Nat

/-- scrapeHealthcareWebsite from autonomous-agent.js.  On a successful
fetch it builds the clinic-team record with GLM-extracted services and
location (defaulting through the JS falsy-or); on any fetch failure it
falls back to the record derived from the hostname alone.  Both
branches derive company, contactName, phone, email and practiceId the
same way, and neither branch can reject. -/
def scrapeHealthcareWebsite (env : ScrapeEnv) (url : TargetURL) : PracticeData :=
  let domain := url.hostname
  let practiceId := generatePracticeId domain
  let companyName := extractCompanyFromDomain domain
  if env.fetchOk then
    { company := companyName
      contactName := companyName ++ " Team"
      phone := extractPhoneFromDomain domain env.q1 env.q2 env.q3
      email := "info@" ++ domain
      location :=
        match env.glmLocation with
        | none => "Professional Healthcare Location"
        | some s => if s = "" then "Professional Healthcare Location" else s
      services := env.glmServices.getD
        ["Aesthetic Treatments", "Cosmetic Surgery", "Dermatology"]
      practiceType := "beauty"
      practiceId := practiceId
      leadSource := "clinic-team-version"
      leadScore := 80
      primaryColor := "#0066cc"
      secondaryColor := "#004499"
      website := some url.raw
      isGeneralVersion := true }
  else
    { company := companyName
      contactName := companyName ++ " Team"
      phone := extractPhoneFromDomain domain env.q1 env.q2 env.q3
      email := "info@" ++ domain
      location := "Unknown Location"
      services := ["Healthcare Services"]
      practiceType := "beauty"
      practiceId := practiceId
      leadSource := "fallback-extraction"
      leadScore := 60
      primaryColor := "#0066cc"
      secondaryColor := "#004499"
      website := none
      isGeneralVersion := true }

/-- The properties object storeLeadInNotion sends to the Notion pages
endpoint: every field is taken verbatim from the lead record, Agent ID
is the literal pending and Demo URL is null. -/
structure NotionProps where
  company : String
  contactName : String
  location : String
  phone : String
  email : String
  websiteUrl : String
  agentIdText : String
  demoUrl : Option String

/-- The request body builder inside storeLeadInNotion. -/
def notionRequestProps (leadData : PracticeData) (websiteUrl : String) : NotionProps :=
  { company := leadData.company
    contactName := leadData.contactName
    location := leadData.location
    phone := leadData.phone
    email := leadData.email
    websiteUrl := websiteUrl
    agentIdText := "pending"
    demoUrl := none }

/-- A Notion page as consumed by the controller (response.data.id). -/
structure NotionPage where
  id : String

/-- storeLeadInNotion from autonomous-agent.js: posts the verbatim
properties; on success returns the page, on rejection throws an error
whose message is the Notion storage failed prefix plus the axios
message.  The remote call is the collaborator parameter, applied to the
exact properties object built from the record. -/
def storeLeadInNotion (remote : NotionProps → Except String NotionPage)
    (leadData : PracticeData) (websiteUrl : String) : Except String NotionPage :=
  match remote (notionRequestProps leadData websiteUrl) with
  | .ok page => .ok page
  | .error m => .error ("Notion storage failed: " ++ m)

/-- createElevenLabsAgent from autonomous-agent.js.  The try block does
no remote call: it builds the prompt strings and returns the locally
generated id agent_(Date.now())_(practiceId).  The catch returns the
configured master agent id.  The throws flag models an exception inside
the try block. -/
def createElevenLabsAgent (throwsInTry : Bool) (masterAgentId : String)
    (now : Nat) (practiceData : PracticeData) : String :=
  if throwsInTry then masterAgentId
  else "agent_" ++ toString now ++ "_" ++ practiceData.practiceId

/-- A GitHub repository as consumed by the controller. -/
structure Repository where
  name : String
  full_name : String
  html_url : String
  clone_url : String

/-- createPersonalizedRepository from autonomous-agent.js: the GitHub
repo creation call either yields the repository or rejects; a rejection
anywhere in its try block (including personalizeRepository, which
throws the Repository personalization failed message) is wrapped with
the Repository creation failed prefix and rethrown. -/
def createPersonalizedRepository (github : Except String Repository)
    (personalizeErr : Option String) : Except String Repository :=
  match github with
  | .error m => .error ("Repository creation failed: " ++ m)
  | .ok repo =>
    match personalizeErr with
    | some m =>
      .error ("Repository creation failed: Repository personalization failed: " ++ m)
    | none => .ok repo

/-- Outcome of one MCP callTool as seen by a railwayMCP helper: the call
threw (including a failed client initialization), it returned no
content, or it returned content whose regex parse gave the optional id
payload. -/
inductive MCPCall (α : Type) where
  | throws (msg : String)
  | noContent
  | ok (payload : α)

structure RailwayProject where
  id : String
  name : String

structure RailwayEnvt where
  id : String
  name : String

structure RailwayService where
  id : String
  name : String

structure RailwayDomain where
  domain : String
  url : String

/-- railwayMCPCreateProject from autonomous-agent.js: a parsed id is
used as is; an unparsed response, an empty response (which the source
turns into a thrown error caught by its own catch) and a thrown call
all end in the project-(Date.now()) fallback.  The helper never
rejects. -/
def railwayMCPCreateProject (call : MCPCall (Option String)) (now : Nat)
    (name : String) : RailwayProject :=
  match call with
  | .ok (some pid) => { id := pid, name := name }
  | .ok none => { id := "project-" ++ toString now, name := name }
  | .noContent => { id := "project-" ++ toString now, name := name }
  | .throws _ => { id := "project-" ++ toString now, name := name }

/-- railwayMCPGetEnvironments from autonomous-agent.js: always yields a
single production environment, with the parsed id when available and
the production-env fallback otherwise.  Never rejects. -/
def railwayMCPGetEnvironments (call : MCPCall (Option String)) : List RailwayEnvt :=
  match call with
  | .ok (some eid) => [{ id := eid, name := "production" }]
  | .ok none => [{ id := "production-env", name := "production" }]
  | .noContent => [{ id := "production-env", name := "production" }]
  | .throws _ => [{ id := "production-env", name := "production" }]

/-- railwayMCPCreateService from autonomous-agent.js: the service name
is the repo part of owner/repo plus the service suffix; a parsed id is
used, every other outcome falls back to service-(Date.now()).  Never
rejects. -/
def railwayMCPCreateService (call : MCPCall (Option String)) (now : Nat)
    (repoFullName : String) : RailwayService :=
  let svcName := String.mk
    ((splitChars (fun c => c = '/') repoFullName.toList).getD 1 "undefined".toList)
    ++ "-service"
  match call with
  | .ok (some sid) => { id := sid, name := svcName }
  | .ok none => { id := "service-" ++ toString now, name := svcName }
  | .noContent => { id := "service-" ++ toString now, name := svcName }
  | .throws _ => { id := "service-" ++ toString now, name := svcName }

/-- The JS replace that deletes every character outside a-z0-9 and dash
when fabricating a mock domain. -/
def sanitizeDomainChars (s : String) : String :=
  String.mk (s.toList.filter
    (fun c => ('a' ≤ c ∧ c ≤ 'z') ∨ ('0' ≤ c ∧ c ≤ '9') ∨ c = '-'))

/-- railwayMCPCreateDomain from autonomous-agent.js: a parsed domain is
used; otherwise (unparsed content, empty content, thrown call) the mock
domain fabricated from the service id is returned.  Never rejects. -/
def railwayMCPCreateDomain (call : MCPCall (Option String))
    (serviceId : String) : RailwayDomain :=
  let mock := sanitizeDomainChars (serviceId ++ "-production.up.railway.app")
  match call with
  | .ok (some d) => { domain := d, url := "https://" ++ d }
  | .ok none => { domain := mock, url := "https://" ++ mock }
  | .noContent => { domain := mock, url := "https://" ++ mock }
  | .throws _ => { domain := mock, url := "https://" ++ mock }

/-- railwayMCPSetVariables from autonomous-agent.js: per-variable errors
are swallowed inside the loop, so the only rethrowing path of its outer
catch is a throwing initializeRailwayMCP.  That initialization outcome
is the parameter. -/
def railwayMCPSetVariables (initErr : Option String) : Except String Unit :=
  match initErr with
  | some m => .error m
  | none => .ok ()

/-- The MCP collaborator outcomes one deployToRailwayFromRepo run
observes, one per helper invocation. -/
structure MCPEnv where
  projectCall : MCPCall (Option String)
  envCall : MCPCall (Option String)
  serviceCall : MCPCall (Option String)
  setVarsInitErr : Option String
  domainCall : MCPCall (Option String)

/-- The object deployToRailwayFromRepo resolves with. -/
structure Deployment where
  url : String
  status : String
  deploymentMethod : String
  projectId : String
  serviceId : String
  domain : String
  repositoryUrl : String

/-- deployToRailwayFromRepo from autonomous-agent.js: create project,
fetch environments and pick the production one (or the first), create
the service from the personalized repo, set the variables (the only
step whose rejection escapes, rethrown by the outer catch), create the
domain, and resolve with the constant railway-mcp-with-dedicated-repo
method. -/
def deployToRailwayFromRepo (env : MCPEnv) (now : Nat) (pd : PracticeData)
    (repo : Repository) : Except String Deployment :=
  let projectName := pd.practiceId ++ "-demo"
  let project := railwayMCPCreateProject env.projectCall now projectName
  let environments := railwayMCPGetEnvironments env.envCall
  let _prodEnv :=
    (environments.find? (fun e => e.name == "production")).getD
      (environments.getD 0 { id := "", name := "" })
  let service := railwayMCPCreateService env.serviceCall now repo.full_name
  match railwayMCPSetVariables env.setVarsInitErr with
  | .error m => .error m
  | .ok _ =>
    let dom := railwayMCPCreateDomain env.domainCall service.id
    .ok { url := "https://" ++ dom.domain
          status := "deployed"
          deploymentMethod := "railway-mcp-with-dedicated-repo"
          projectId := project.id
          serviceId := service.id
          domain := dom.domain
          repositoryUrl := repo.html_url }

/-- The result object of processHealthcareWebsite.  The JS success and
failure returns are flat objects with different key sets; the shared
shape is modelled with optional fields, absent keys being none. -/
structure Report where
  leadId : String
  url : String
  status : String
  company : Option String := none
  doctor : Option String := none
  demoUrl : Option String := none
  agentId : Option String := none
  notionId : Option String := none
  repositoryUrl : Option String := none
  deploymentMethod : Option String := none
  error : Option String := none
  duration : Nat := 0

/-- All collaborator outcomes one processHealthcareWebsite run observes,
plus the Date.now oracle and the elapsed seconds of the run. -/
structure WorkflowEnv where
  scrape : ScrapeEnv
  notion : NotionProps → Except String NotionPage
  elevenThrows : Bool
  masterAgentId : String
  github : Except String Repository
  personalizeErr : Option String
  mcp : MCPEnv
  now : Nat
  elapsed : Nat

/-- processHealthcareWebsite from autonomous-agent.js.  The whole phase
sequence sits in one try block; the first rejection jumps to the catch,
which resolves with the flat failed record.  A fully successful run
resolves with the success record.  The second component is the trace of
collaborator phases actually entered, in source order: scrape, notion,
eleven, repo, deploy, updateNotion (updateNotionWithResults swallows
its own errors and therefore never alters the result). -/
def processHealthcareWebsite (env : WorkflowEnv) (url : TargetURL) :
    Report × List String :=
  let leadId := "lead-" ++ toString env.now
  let scraped := scrapeHealthcareWebsite env.scrape url
  match storeLeadInNotion env.notion scraped url.raw with
  | .error e =>
    ({ leadId := leadId, url := url.raw, status := "failed",
       error := some e, duration := env.elapsed },
     ["scrape", "notion"])
  | .ok page =>
    let agentId := createElevenLabsAgent env.elevenThrows env.masterAgentId env.now scraped
    match createPersonalizedRepository env.github env.personalizeErr with
    | .error e =>
      ({ leadId := leadId, url := url.raw, status := "failed",
         error := some e, duration := env.elapsed },
       ["scrape", "notion", "eleven", "repo"])
    | .ok repo =>
      match deployToRailwayFromRepo env.mcp env.now scraped repo with
      | .error e =>
        ({ leadId := leadId, url := url.raw, status := "failed",
           error := some e, duration := env.elapsed },
         ["scrape", "notion", "eleven", "repo", "deploy"])
      | .ok dep =>
        ({ leadId := leadId, url := url.raw, status := "success",
           company := some scraped.company,
           doctor := some scraped.contactName,
           demoUrl := some dep.url,
           agentId := some agentId,
           notionId := some page.id,
           repositoryUrl := some repo.html_url,
           deploymentMethod := some "railway-mcp-with-dedicated-repo",
           duration := env.elapsed },
         ["scrape", "notion", "eleven", "repo", "deploy", "updateNotion"])

def blankURL : TargetURL := { raw := "", hostname := "" }

def blankReport : Report := { leadId := "", url := "", status := "" }

/-- The for-of loop of the /process-urls route: each URL is awaited in
full before the next one starts, and its result is pushed in submission
order.  The per-iteration collaborator outcomes are indexed by
position. -/
def processUrlsFrom (envOf : Nat → WorkflowEnv) :
    Nat → List TargetURL → List Report
  | _, [] => []
  | i, u :: rest =>
    (processHealthcareWebsite (envOf i) u).1 :: processUrlsFrom envOf (i + 1) rest

/-- The /process-urls handler body over a URL list. -/
def processUrlsHandler (envOf : Nat → WorkflowEnv)
    (urls : List TargetURL) : List Report :=
  processUrlsFrom envOf 0 urls

/-- Execution events of the sequential batch loop: each processing call
starts and finishes before the next starts, which is what the awaited
loop body of the handler does. -/
inductive BatchEvent where
  | start (i : Nat)
  | finish (i : Nat)

/-- The event trace of the sequential loop over the URL list. -/
def batchTrace : Nat → List TargetURL → List BatchEvent
  | _, [] => []
  | i, _ :: rest => .start i :: .finish i :: batchTrace (i + 1) rest

def inFlightDelta : BatchEvent → Int
  | .start _ => 1
  | .finish _ => -1

/-- The number of in-flight calls observed before each event and after
the last one, starting from n in flight. -/
def inFlightCounts : Int → List BatchEvent → List Int
  | n, [] => [n]
  | n, e :: rest => n :: inFlightCounts (n + inFlightDelta e) rest

/-- Modelled from the spec: the named DeploymentStrategies of the
DeploymentStrategy data model, in the priority order the spec lists;
no such strategy list, names or priority dispatch exist anywhere in
src/autonomous-agent.js. -/
def specDeploymentStrategyNames : List String :=
  ["full-remote-deploy", "existing-template-reuse",
   "direct-service-create", "emergency-mock"]

/-! Concrete fixtures used by witnesses and counterexamples. -/

def urlEx : TargetURL := { raw := "https://example.com", hostname := "example.com" }

def repoEx : Repository :=
  { name := "example-demo-1000"
    full_name := "user/example-demo-1000"
    html_url := "https://github.com/user/example-demo-1000"
    clone_url := "https://github.com/user/example-demo-1000.git" }

def scrapeOK : ScrapeEnv :=
  { fetchOk := true, glmServices := some ["Botox", "Fillers"],
    glmLocation := some "London, UK", q1 := 123, q2 := 4567, q3 := 890 }

def scrapeFailA : ScrapeEnv :=
  { fetchOk := false, glmServices := none, glmLocation := none,
    q1 := 101, q2 := 2020, q3 := 3030 }

def scrapeFailB : ScrapeEnv :=
  { fetchOk := false, glmServices := some ["X"], glmLocation := some "Y",
    q1 := 555, q2 := 666, q3 := 777 }

def mcpAllOK : MCPEnv :=
  { projectCall := .ok (some "aaaa-1111")
    envCall := .ok (some "bbbb-2222")
    serviceCall := .ok (some "cccc-3333")
    setVarsInitErr := none
    domainCall := .ok (some "example-demo.up.railway.app") }

def envAllOK : WorkflowEnv :=
  { scrape := scrapeOK
    notion := fun _ => .ok { id := "page-1" }
    elevenThrows := false
    masterAgentId := "master-agent"
    github := .ok repoEx
    personalizeErr := none
    mcp := mcpAllOK
    now := 1000
    elapsed := 5 }

/-- The practice record scraped from the example URL. -/
def pdEx : PracticeData := scrapeHealthcareWebsite scrapeOK urlEx

/-- A name with a control character and 2001 characters in total. -/
def ctrlLongName : String := String.mk ('\x01' :: List.replicate 2000 'a')

def pdCtrl : PracticeData := { pdEx with company := ctrlLongName }

def pdBadEmail : PracticeData := { pdEx with email := "not-an-email" }

/-! Helper lemmas. -/

theorem extractCompanyFromDomain_ne_empty (d : String) :
    extractCompanyFromDomain d ≠ "" := by
  show String.mk (joinWithSpace
      ((splitChars (fun c => c = '-' || c = '.')
        (stripTLDChars (stripWWWChars d.toList))).map capitalizeChars))
    ++ " Clinic" ≠ ""
  intro h
  have hlen := congrArg String.length h
  rw [String.length_append] at hlen
  have h7 : (" Clinic" : String).length = 7 := rfl
  have h0 : ("" : String).length = 0 := rfl
  omega

/-- C3 counterexample: storeLeadInNotion builds the Notion properties
verbatim from the record, so a name with a control character and more
than 2000 characters reaches the lead-database call with the control
character and the full length intact; the claimed sanitization does not
happen. -/
theorem notionRequestProps_ctrl_long_name_unsanitized_cex :
    (notionRequestProps pdCtrl "https://example.com").company = pdCtrl.company
    ∧ 2000 < (notionRequestProps pdCtrl "https://example.com").company.length
    ∧ '\x01' ∈ (notionRequestProps pdCtrl "https://example.com").company.toList
    ∧ '\x01'.toNat < 32 := by
  have hcompany : (notionRequestProps pdCtrl "https://example.com").company
      = ctrlLongName := rfl
  refine ⟨rfl, ?_, ?_, by decide⟩
  · rw [hcompany]
    have h1 : ctrlLongName.length = 2001 := by
      show ('\x01' :: List.replicate 2000 'a').length = 2001
      rw [List.length_cons, List.length_replicate]
    omega
  · rw [hcompany]
    show '\x01' ∈ '\x01' :: List.replicate 2000 'a'
    exact List.mem_cons_self _ _

/-- C3 amended: before the lead-database call no sanitization at all is
applied; the properties object passed to the call carries the name and
the other fields of the input record verbatim. -/
theorem notionRequestProps_passes_name_verbatim (pd : PracticeData)
    (websiteUrl : String) :
    (notionRequestProps pd websiteUrl).company = pd.company
    ∧ (notionRequestProps pd websiteUrl).contactName = pd.contactName
    ∧ (notionRequestProps pd websiteUrl).location = pd.location
    ∧ (notionRequestProps pd websiteUrl).phone = pd.phone :=
  ⟨rfl, rfl, rfl, rfl⟩

/-- C4: when the page fetch fails, the fallback record built by
scrapeHealthcareWebsite has a company name that is exactly
extractCompanyFromDomain of the hostname, hence equal across any two
failing runs of the same URL and never empty. -/
theorem scrape_fallback_company_deterministic_nonempty
    (e1 e2 : ScrapeEnv) (url : TargetURL)
    (h1 : e1.fetchOk = false) (h2 : e2.fetchOk = false) :
    (scrapeHealthcareWebsite e1 url).company
      = (scrapeHealthcareWebsite e2 url).company
    ∧ (scrapeHealthcareWebsite e1 url).company
      = extractCompanyFromDomain url.hostname
    ∧ (scrapeHealthcareWebsite e1 url).company ≠ "" := by
  simp only [scrapeHealthcareWebsite, h1, h2]
  exact ⟨rfl, rfl, extractCompanyFromDomain_ne_empty _⟩

/-- C4 witness: two different failing scrape environments on the example
URL derive the same non-empty fallback name. -/
theorem scrape_fallback_company_deterministic_nonempty_witness :
    scrapeFailA.fetchOk = false ∧ scrapeFailB.fetchOk = false
    ∧ ((scrapeHealthcareWebsite scrapeFailA urlEx).company
        = (scrapeHealthcareWebsite scrapeFailB urlEx).company
      ∧ (scrapeHealthcareWebsite scrapeFailA urlEx).company
        = extractCompanyFromDomain urlEx.hostname
      ∧ (scrapeHealthcareWebsite scrapeFailA urlEx).company ≠ "") :=
  ⟨rfl, rfl,
    scrape_fallback_company_deterministic_nonempty scrapeFailA scrapeFailB urlEx rfl rfl⟩

/-- C6 counterexample: when the try block of createElevenLabsAgent
throws, the substituted identifier is the configured master agent id,
not the fixed-prefix-plus-timestamp string, and with the same timestamp
and practice two runs differing only in the configured master id give
different fallback identifiers. -/
theorem elevenlabs_fallback_not_timestamp_cex :
    createElevenLabsAgent true "master-agent" 123 pdEx = "master-agent"
    ∧ "master-agent" ≠ "agent_" ++ toString 123 ++ "_" ++ pdEx.practiceId
    ∧ createElevenLabsAgent true "other-master" 123 pdEx
        ≠ createElevenLabsAgent true "master-agent" 123 pdEx := by
  refine ⟨rfl, by decide, by decide⟩

/-- C6 amended: on an exception inside the try block the phase
substitutes the configured master agent id (non-empty whenever the
configured value is, which the startup environment validation
enforces); the locally generated agent_(timestamp)_(practiceId)
identifier is what the non-throwing path produces.  Either way the
phase yields a non-empty identifier. -/
theorem elevenlabs_fallback_master_agent_nonempty
    (throwsInTry : Bool) (master : String) (now : Nat) (pd : PracticeData)
    (h : master ≠ "") :
    createElevenLabsAgent throwsInTry master now pd ≠ ""
    ∧ (throwsInTry = true →
        createElevenLabsAgent throwsInTry master now pd = master)
    ∧ (throwsInTry = false →
        createElevenLabsAgent throwsInTry master now pd
          = "agent_" ++ toString now ++ "_" ++ pd.practiceId) := by
  unfold createElevenLabsAgent
  cases throwsInTry with
  | true => exact ⟨h, fun _ => rfl, fun hc => by simp at hc⟩
  | false =>
    refine ⟨?_, fun hc => by simp at hc, fun _ => rfl⟩
    intro hc
    have hc' : "agent_" ++ toString now ++ "_" ++ pd.practiceId = "" := hc
    have hlen := congrArg String.length hc'
    rw [String.length_append, String.length_append, String.length_append] at hlen
    have h6 : ("agent_" : String).length = 6 := rfl
    have h0 : ("" : String).length = 0 := rfl
    omega

/-- C6 witness: instantiation of the amended statement at a concrete
non-empty master id. -/
theorem elevenlabs_fallback_master_agent_nonempty_witness :
    ("master-agent" : String) ≠ ""
    ∧ (createElevenLabsAgent true "master-agent" 123 pdEx ≠ ""
      ∧ (true = true → createElevenLabsAgent true "master-agent" 123 pdEx = "master-agent")
      ∧ (true = false →
          createElevenLabsAgent true "master-agent" 123 pdEx
            = "agent_" ++ toString 123 ++ "_" ++ pdEx.practiceId)) :=
  ⟨by decide,
    elevenlabs_fallback_master_agent_nonempty true "master-agent" 123 pdEx (by decide)⟩

/-- C8 counterexample: a record whose email field is the invalid string
not-an-email reaches the lead-database call with that exact value; the
field is not blanked. -/
theorem invalid_email_passed_verbatim_cex :
    (notionRequestProps pdBadEmail "https://example.com").email = "not-an-email"
    ∧ (notionRequestProps pdBadEmail "https://example.com").email ≠ "" := by
  refine ⟨rfl, by decide⟩

/-- C8 amended: the email field of the properties object passed to the
lead-database call is the input record email verbatim; no validation or
blanking of invalid values happens anywhere before the call. -/
theorem notionRequestProps_passes_email_verbatim (pd : PracticeData)
    (websiteUrl : String) :
    (notionRequestProps pd websiteUrl).email = pd.email := rfl

/-! Deployment phase (C5). -/

/-- An MCP environment in which the real domain-creation call throws and
only the locally fabricated mock fallback succeeds. -/
def mcpDomainFail : MCPEnv := { mcpAllOK with domainCall := .throws "MCP connection lost" }

/-- The method string of a deployment outcome, when it resolved. -/
def deployMethodOf : Except String Deployment → Option String
  | .ok d => some d.deploymentMethod
  | .error _ => none

/-- C5 counterexample: with the real MCP domain call throwing and its
internal mock fallback succeeding, the resolved deployment method is
still the constant railway-mcp-with-dedicated-repo; it is not the name
of a second strategy and no name from the four-strategy list the spec
describes ever appears. -/
theorem deploy_no_strategy_list_cex :
    mcpDomainFail.domainCall = .throws "MCP connection lost"
    ∧ deployMethodOf (deployToRailwayFromRepo mcpDomainFail 1000 pdEx repoEx)
        = some "railway-mcp-with-dedicated-repo"
    ∧ "railway-mcp-with-dedicated-repo" ≠ "existing-template-reuse"
    ∧ "railway-mcp-with-dedicated-repo" ∉ specDeploymentStrategyNames := by
  refine ⟨rfl, rfl, by decide, by decide⟩

/-- C5 amended: the repository+deployment phase runs one fixed
Railway-MCP sequence whose helper calls individually fall back to
locally fabricated mock results; there is no four-strategy priority
list, and whenever the phase resolves its deploymentMethod equals the
constant railway-mcp-with-dedicated-repo regardless of which helper
calls fell back. -/
theorem deploy_method_constant_railway_mcp (env : MCPEnv) (now : Nat)
    (pd : PracticeData) (repo : Repository) (dep : Deployment)
    (h : deployToRailwayFromRepo env now pd repo = .ok dep) :
    dep.deploymentMethod = "railway-mcp-with-dedicated-repo" := by
  unfold deployToRailwayFromRepo at h
  cases hv : env.setVarsInitErr with
  | some m => simp [railwayMCPSetVariables, hv] at h
  | none =>
    simp only [railwayMCPSetVariables, hv, Except.ok.injEq] at h
    rw [← h]

/-- The deployment the all-successful MCP environment resolves with. -/
def depEx : Deployment :=
  { url := "https://example-demo.up.railway.app"
    status := "deployed"
    deploymentMethod := "railway-mcp-with-dedicated-repo"
    projectId := "aaaa-1111"
    serviceId := "cccc-3333"
    domain := "example-demo.up.railway.app"
    repositoryUrl := "https://github.com/user/example-demo-1000" }

/-- C5 witness: instantiation of the amended statement at the
all-successful MCP environment. -/
theorem deploy_method_constant_railway_mcp_witness :
    deployToRailwayFromRepo mcpAllOK 1000 pdEx repoEx = .ok depEx
    ∧ depEx.deploymentMethod = "railway-mcp-with-dedicated-repo" :=
  ⟨rfl, deploy_method_constant_railway_mcp mcpAllOK 1000 pdEx repoEx depEx rfl⟩

/-! Workflow controller (C1, C2, C7, C10). -/

/-- A run in which the Notion storage collaborator rejects while every
other collaborator would succeed. -/
def envC1 : WorkflowEnv := { envAllOK with notion := fun _ => .error "socket hang up" }

def envC2 : WorkflowEnv := { envAllOK with notion := fun _ => .error "ECONNREFUSED" }

def envC2w : WorkflowEnv := { envAllOK with notion := fun _ => .error "db down" }

def envC10 : WorkflowEnv := { envAllOK with notion := fun _ => .error "ECONNRESET" }

/-- C1 counterexample: when one collaborator (Notion storage) rejects,
processHealthcareWebsite resolves to a flat failure record in which
none of the per-phase results is populated, so the returned object is
not a report with all four phase results. -/
theorem processHealthcareWebsite_failed_report_phase_results_missing :
    (processHealthcareWebsite envC1 urlEx).1.status = "failed"
    ∧ (processHealthcareWebsite envC1 urlEx).1.company = none
    ∧ (processHealthcareWebsite envC1 urlEx).1.agentId = none
    ∧ (processHealthcareWebsite envC1 urlEx).1.notionId = none
    ∧ (processHealthcareWebsite envC1 urlEx).1.demoUrl = none :=
  ⟨rfl, rfl, rfl, rfl, rfl⟩

/-- C1 amended: processHealthcareWebsite never throws; every run
resolves to a result record whose status is success or failed.  A fully
successful run populates every phase output, and a failed run carries
an error message, but a failed run is a flat record without per-phase
results. -/
theorem processHealthcareWebsite_resolves_report (env : WorkflowEnv) (url : TargetURL) :
    ((processHealthcareWebsite env url).1.status = "success"
      ∧ (processHealthcareWebsite env url).1.company.isSome = true
      ∧ (processHealthcareWebsite env url).1.doctor.isSome = true
      ∧ (processHealthcareWebsite env url).1.agentId.isSome = true
      ∧ (processHealthcareWebsite env url).1.notionId.isSome = true
      ∧ (processHealthcareWebsite env url).1.repositoryUrl.isSome = true
      ∧ (processHealthcareWebsite env url).1.demoUrl.isSome = true)
    ∨ ((processHealthcareWebsite env url).1.status = "failed"
      ∧ (processHealthcareWebsite env url).1.error.isSome = true) := by
  simp only [processHealthcareWebsite]
  split
  · right; exact ⟨rfl, rfl⟩
  · split
    · right; exact ⟨rfl, rfl⟩
    · split
      · right; exact ⟨rfl, rfl⟩
      · left; exact ⟨rfl, rfl, rfl, rfl, rfl, rfl, rfl⟩

/-- C2 counterexample: when exactly the lead-database collaborator
rejects, the run resolves with status failed, which is not
partial-success, and the storage phase itself is an error (no fallback
record treated as logical success). -/
theorem notion_failure_not_partial_success_cex :
    (processHealthcareWebsite envC2 urlEx).1.status = "failed"
    ∧ ("failed" : String) ≠ "partial-success"
    ∧ (processHealthcareWebsite envC2 urlEx).1.error
        = some "Notion storage failed: ECONNREFUSED"
    ∧ storeLeadInNotion (fun _ => .error "ECONNREFUSED") pdEx "https://example.com"
        = .error "Notion storage failed: ECONNREFUSED" := by
  refine ⟨rfl, by decide, rfl, rfl⟩

/-- C2 amended: if the lead-database collaborator rejects,
storeLeadInNotion rethrows the failure with the Notion storage failed
prefix and processHealthcareWebsite resolves with status failed (never
partial-success), blocking the rest of the pipeline; no fallback record
and no is-fallback marker exist. -/
theorem notion_failure_blocks_pipeline_failed_status
    (env : WorkflowEnv) (url : TargetURL) (m : String)
    (h : env.notion = fun _ => .error m) :
    (processHealthcareWebsite env url).1.status = "failed"
    ∧ (processHealthcareWebsite env url).1.error
        = some ("Notion storage failed: " ++ m)
    ∧ (processHealthcareWebsite env url).1.status ≠ "partial-success" := by
  simp only [processHealthcareWebsite, storeLeadInNotion, h]
  refine ⟨by trivial, by trivial, by decide⟩

/-- C2 witness: instantiation of the amended statement at a concrete
run whose Notion collaborator rejects. -/
theorem notion_failure_blocks_pipeline_failed_status_witness :
    (envC2w.notion = fun _ => .error "db down")
    ∧ ((processHealthcareWebsite envC2w urlEx).1.status = "failed"
      ∧ (processHealthcareWebsite envC2w urlEx).1.error
          = some ("Notion storage failed: " ++ "db down")
      ∧ (processHealthcareWebsite envC2w urlEx).1.status ≠ "partial-success") :=
  ⟨rfl, notion_failure_blocks_pipeline_failed_status envC2w urlEx "db down" rfl⟩

/-- C7 counterexample: on a run in which every collaborator succeeds the
resolved status is the string success, not the string complete; the
result record has no workflow-status field valued complete. -/
theorem all_success_status_not_complete_cex :
    (processHealthcareWebsite envAllOK urlEx).1.status = "success"
    ∧ ("success" : String) ≠ "complete" := by
  refine ⟨rfl, by decide⟩

/-- C7 amended: if every collaborator call succeeds the resolved record
has status success (the code computes no workflow-status value complete
and sets no per-phase fallback flags, since the report carries no such
fields). -/
theorem all_success_status_success (env : WorkflowEnv) (url : TargetURL)
    (page : NotionPage) (repo : Repository)
    (hn : env.notion = fun _ => Except.ok page)
    (hg : env.github = Except.ok repo)
    (hp : env.personalizeErr = none)
    (hv : env.mcp.setVarsInitErr = none) :
    (processHealthcareWebsite env url).1.status = "success" := by
  simp only [processHealthcareWebsite, storeLeadInNotion,
    createPersonalizedRepository, deployToRailwayFromRepo,
    railwayMCPSetVariables, hn, hg, hp, hv]

/-- C7 witness: instantiation of the amended statement at the
all-successful environment. -/
theorem all_success_status_success_witness :
    (envAllOK.notion = fun _ => Except.ok { id := "page-1" })
    ∧ envAllOK.github = Except.ok repoEx
    ∧ envAllOK.personalizeErr = none
    ∧ envAllOK.mcp.setVarsInitErr = none
    ∧ (processHealthcareWebsite envAllOK urlEx).1.status = "success" :=
  ⟨rfl, rfl, rfl, rfl,
    all_success_status_success envAllOK urlEx { id := "page-1" } repoEx rfl rfl rfl rfl⟩

/-- C10: if the scrape phase has produced its record and the Notion
storage call rejects, the run resolves with status failed, the error
message starts with the Notion storage failed prefix, and the
voice-agent, repository and deployment phases are never entered. -/
theorem notion_reject_aborts_later_phases
    (env : WorkflowEnv) (url : TargetURL) (m : String)
    (h : env.notion = fun _ => .error m) :
    (processHealthcareWebsite env url).1.status = "failed"
    ∧ charsStartWith "Notion storage failed".toList
        (((processHealthcareWebsite env url).1.error.getD "").toList) = true
    ∧ (processHealthcareWebsite env url).2 = ["scrape", "notion"]
    ∧ "eleven" ∉ (processHealthcareWebsite env url).2
    ∧ "repo" ∉ (processHealthcareWebsite env url).2
    ∧ "deploy" ∉ (processHealthcareWebsite env url).2 := by
  simp only [processHealthcareWebsite, storeLeadInNotion, h]
  refine ⟨by trivial, by trivial, by trivial, by decide, by decide, by decide⟩

/-- C10 witness: instantiation at a concrete run whose Notion
collaborator rejects. -/
theorem notion_reject_aborts_later_phases_witness :
    (envC10.notion = fun _ => .error "ECONNRESET")
    ∧ ((processHealthcareWebsite envC10 urlEx).1.status = "failed"
      ∧ charsStartWith "Notion storage failed".toList
          (((processHealthcareWebsite envC10 urlEx).1.error.getD "").toList) = true
      ∧ (processHealthcareWebsite envC10 urlEx).2 = ["scrape", "notion"]
      ∧ "eleven" ∉ (processHealthcareWebsite envC10 urlEx).2
      ∧ "repo" ∉ (processHealthcareWebsite envC10 urlEx).2
      ∧ "deploy" ∉ (processHealthcareWebsite envC10 urlEx).2) :=
  ⟨rfl, notion_reject_aborts_later_phases envC10 urlEx "ECONNRESET" rfl⟩

/-! Batch processing (C9). -/

theorem processUrlsFrom_length (envOf : Nat → WorkflowEnv) :
    ∀ (urls : List TargetURL) (k : Nat),
      (processUrlsFrom envOf k urls).length = urls.length := by
  intro urls
  induction urls with
  | nil => intro k; rfl
  | cons u rest ih =>
    intro k
    simp [processUrlsFrom, ih]

theorem processUrlsFrom_getD (envOf : Nat → WorkflowEnv) :
    ∀ (urls : List TargetURL) (k i : Nat), i < urls.length →
      (processUrlsFrom envOf k urls).getD i blankReport
        = (processHealthcareWebsite (envOf (k + i)) (urls.getD i blankURL)).1 := by
  intro urls
  induction urls with
  | nil => intro k i h; simp at h
  | cons u rest ih =>
    intro k i h
    cases i with
    | zero => simp [processUrlsFrom]
    | succ n =>
      have h' : n < rest.length := by simpa using h
      have hk : k + 1 + n = k + (n + 1) := by omega
      simpa [processUrlsFrom, hk] using ih (k + 1) n h'

theorem inFlightCounts_batchTrace_le_one :
    ∀ (urls : List TargetURL) (k : Nat) (x : Int),
      x ∈ inFlightCounts 0 (batchTrace k urls) → x ≤ 1 := by
  intro urls
  induction urls with
  | nil =>
    intro k x hx
    simp [batchTrace, inFlightCounts] at hx
    omega
  | cons u rest ih =>
    intro k x hx
    have hshape : inFlightCounts 0 (batchTrace k (u :: rest))
        = 0 :: 1 :: inFlightCounts 0 (batchTrace (k + 1) rest) := by
      show inFlightCounts 0 (.start k :: .finish k :: batchTrace (k + 1) rest)
        = 0 :: 1 :: inFlightCounts 0 (batchTrace (k + 1) rest)
      norm_num [inFlightCounts, inFlightDelta]
    rw [hshape] at hx
    simp only [List.mem_cons] at hx
    rcases hx with h0 | h1 | hrest
    · omega
    · omega
    · exact ih (k + 1) x hrest

/-- C9: the /process-urls handler runs the workflow strictly
sequentially: for a 7-URL batch the result list has length 7, the
result at each index is the workflow outcome of the URL submitted at
that index, and at every point of the execution trace at most one call
(hence at most the claimed bound of 3) is in flight. -/
theorem process_urls_sequential_batch7 (envOf : Nat → WorkflowEnv)
    (urls : List TargetURL) (h : urls.length = 7) :
    (processUrlsHandler envOf urls).length = 7
    ∧ (∀ i, i < 7 →
        (processUrlsHandler envOf urls).getD i blankReport
          = (processHealthcareWebsite (envOf i) (urls.getD i blankURL)).1)
    ∧ (∀ x ∈ inFlightCounts 0 (batchTrace 0 urls), x ≤ 3) := by
  refine ⟨?_, ?_, ?_⟩
  · rw [processUrlsHandler, processUrlsFrom_length envOf urls 0, h]
  · intro i hi
    have := processUrlsFrom_getD envOf urls 0 i (by omega)
    simpa [processUrlsHandler] using this
  · intro x hx
    have := inFlightCounts_batchTrace_le_one urls 0 x hx
    omega

def urls7 : List TargetURL :=
  [urlEx, urlEx, urlEx, urlEx, urlEx, urlEx, urlEx]

/-- C9 witness: instantiation at a concrete 7-URL batch. -/
theorem process_urls_sequential_batch7_witness :
    urls7.length = 7
    ∧ ((processUrlsHandler (fun _ => envAllOK) urls7).length = 7
      ∧ (∀ i, i < 7 →
          (processUrlsHandler (fun _ => envAllOK) urls7).getD i blankReport
            = (processHealthcareWebsite ((fun _ => envAllOK) i) (urls7.getD i blankURL)).1)
      ∧ (∀ x ∈ inFlightCounts 0 (batchTrace 0 urls7), x ≤ 3)) :=
  ⟨rfl, process_urls_sequential_batch7 (fun _ => envAllOK) urls7 rfl⟩

end HealthcareAgent
